import Mathlib

/-!
Verification of the data-access and coaching contract of `web_aar.py`
(team daily-AAR logging app).

The sheet backend (gspread) is modelled as a list of raw rows
(`List (List String)`); `append_row` appends at the bottom and
`get_all_records` drops the header row.  An exception raised by the
backend inside a `try` block is modelled by an explicit `gsFails` flag:
when it is `true` the function takes its `except` branch.  The server
clock `datetime.datetime.now()` is modelled as an explicit `DateTime`
argument holding the instant of the call.  The generative-model client
is a record holding the `models.generate_content` call as a function
returning `Except` (an exception from the API is the `error` case).
-/

namespace WebAAR

/-- A calendar instant, the value `datetime.datetime.now()` returns. -/
structure DateTime where
  year : Nat
  month : Nat
  day : Nat
  hour : Nat
  minute : Nat
  second : Nat
deriving DecidableEq, Repr

/-- Zero-pad the decimal form of `n` on the left to width `w`,
as the `strftime` field formats do. -/
def padZero (w : Nat) (n : Nat) : String :=
  let s := toString n
  String.mk (List.replicate (w - s.length) '0') ++ s

/-- `now.strftime("%Y-%m-%d")` (line 61). -/
def strftimeDate (t : DateTime) : String :=
  padZero 4 t.year ++ "-" ++ padZero 2 t.month ++ "-" ++ padZero 2 t.day

/-- `now.strftime("%H:%M:%S")` (line 62). -/
def strftimeTime (t : DateTime) : String :=
  padZero 2 t.hour ++ ":" ++ padZero 2 t.minute ++ ":" ++ padZero 2 t.second

/-- The worksheet: a list of raw rows, top to bottom.  `append_row`
adds at the bottom. -/
abbrev Sheet : Type := List (List String)

/-- The fixed header row written by `init_sheet_headers` (lines 53-55). -/
def headerRow : List String :=
  ["Date", "Time", "User", "Went Right", "Went Wrong", "Next Steps"]

/-- `sheet.acell('A1').value`, with an absent cell read as the empty
string (gspread returns `None`, which is falsy like `""`). -/
def acellA1 (s : Sheet) : String :=
  (s.headD []).headD ""

/-- `init_sheet_headers` (lines 47-57): if cell A1 is falsy, append the
header row; any exception is caught (`gsFails = true` leaves the sheet
unchanged, a warning is shown). -/
def init_sheet_headers (gsFails : Bool) (s : Sheet) : Sheet :=
  if gsFails then s
  else if acellA1 s = "" then s ++ [headerRow] else s

/-- One record of `get_all_records()`: a row keyed by the fixed header
schema `Date, Time, User, Went Right, Went Wrong, Next Steps`. -/
structure Entry where
  date : String
  time : String
  user : String
  wentRight : String
  wentWrong : String
  nextSteps : String
deriving DecidableEq, Repr

/-- Read one raw data row under the fixed header; a missing cell is the
empty string. -/
def rowToEntry (r : List String) : Entry :=
  ⟨r.getD 0 "", r.getD 1 "", r.getD 2 "", r.getD 3 "", r.getD 4 "", r.getD 5 ""⟩

/-- `sheet.get_all_records()` (line 79) on a sheet carrying the fixed
header row: every row below the header, keyed by that header, in sheet
order (append order). -/
def getAllRecords (s : Sheet) : List Entry :=
  match s with
  | [] => []
  | _ :: rows => rows.map rowToEntry

/-- The row `save_to_sheet` appends (lines 67-69): server-clock date and
time, then the caller's four text fields.  The caller passes no date or
time of its own. -/
def savedRow (now : DateTime) (user right wrong next_time : String) : List String :=
  [strftimeDate now, strftimeTime now, user, right, wrong, next_time]

/-- `save_to_sheet` (lines 59-73): formats the current instant, appends
one row, returns `True`; any exception from the backend is caught and
`False` is returned (`st.error` is presentation only).  The append is
atomic, so a failing call leaves the sheet unchanged. -/
def save_to_sheet (now : DateTime) (gsFails : Bool) (s : Sheet)
    (user right wrong next_time : String) : Sheet × Bool :=
  if gsFails then (s, false)
  else (s ++ [savedRow now user right wrong next_time], true)

/-- The truthiness test `if user_filter and user_filter != "All Users"`
(line 86): `None` and `""` are falsy, and the sentinel `"All Users"`
disables filtering. -/
def filterActive : Option String → Bool
  | none => false
  | some s => decide (s ≠ "") && decide (s ≠ "All Users")

/-- `load_history_from_sheet` (lines 75-95): read all records; an empty
frame is returned as is; otherwise filter by user when the filter is
truthy and not the `"All Users"` sentinel, then reverse (`iloc[::-1]`)
so the newest row comes first.  Any exception yields an empty frame. -/
def load_history_from_sheet (gsFails : Bool) (s : Sheet)
    (user_filter : Option String) : List Entry :=
  if gsFails then []
  else
    let data := getAllRecords s
    if data.isEmpty then data
    else
      let df :=
        if filterActive user_filter then
          data.filter (fun e => e.user == user_filter.getD "")
        else data
      df.reverse

/-- The `models.generate_content` call of the cached genai client: from
a model identifier and a prompt to the response text, or to the message
of the exception the API raised. -/
structure AIClient where
  generate_content : String → String → Except String String

/-- Result of `generate_ai_tip`, instrumented with the list of
`(model, prompt)` requests actually sent to the external model. -/
structure TipResult where
  tip : String
  calls : List (String × String)
deriving DecidableEq, Repr

/-- The per-row block the loop of lines 108-113 appends to
`history_text`. -/
def entryLine (row : Entry) : String :=
  "- Date: " ++ row.date ++ "\n  Went Wrong: " ++ row.wentWrong ++
    "\n  Went Right: " ++ row.wentRight ++ "\n\n"

/-- `history_text` accumulated over the given rows (lines 107-113). -/
def history_text (rows : List Entry) : String :=
  rows.foldl (fun acc row => acc ++ entryLine row) ""

/-- `history_df.head(5)` (line 105): the first five rows of the
newest-first frame. -/
def recent_history (history_df : List Entry) : List Entry :=
  history_df.take 5

/-- The f-string prompt of lines 115-124. -/
def build_prompt (user : String) (history_df : List Entry) : String :=
  "\n    You are an expert Agile Team Coach.\n    Analyze these recent AARs for user "
    ++ user ++ ":\n    \n    " ++ history_text (recent_history history_df) ++
    "\n    \n    TASK:\n    Identify the underlying pattern of what is going wrong.\n    Provide ONE specific, actionable, and short tip (under 50 words) to help them improve tomorrow.\n    "

/-- `generate_ai_tip` (lines 97-134).  `ai_client` is `None` exactly
when `get_ai_client` failed; a `None` client is falsy, so the guard of
line 98 fires first.  The empty-frame guard of line 101 comes next.
Otherwise the prompt over the first five rows is sent once; the
response text is returned, or on an API exception the
`"AI Connection Error: ..."` string of line 134. -/
def generate_ai_tip (ai_client : Option AIClient) (history_df : List Entry)
    (user : String) : TipResult :=
  match ai_client with
  | none => ⟨"AI Error: Client not connected.", []⟩
  | some c =>
    if history_df.isEmpty then ⟨"Log more entries to get AI coaching!", []⟩
    else
      let prompt := build_prompt user history_df
      match c.generate_content "gemini-1.5-flash" prompt with
      | Except.ok text => ⟨text, [("gemini-1.5-flash", prompt)]⟩
      | Except.error e => ⟨"AI Connection Error: " ++ e, [("gemini-1.5-flash", prompt)]⟩

/-- One form submission's inputs: the server clock at the instant of
the save, and the four text fields. -/
structure SaveInput where
  now : DateTime
  user : String
  right : String
  wrong : String
  next_time : String
deriving DecidableEq, Repr

/-- The entry a successful `save_to_sheet` makes visible to
`get_all_records`. -/
def entryOf (i : SaveInput) : Entry :=
  ⟨strftimeDate i.now, strftimeTime i.now, i.user, i.right, i.wrong, i.next_time⟩

/-- The sheet produced by initializing an empty sheet and running a
sequence of successful saves, in order. -/
def buildSheet (saves : List SaveInput) : Sheet :=
  saves.foldl
    (fun s i => (save_to_sheet i.now false s i.user i.right i.wrong i.next_time).1)
    (init_sheet_headers false [])

/-- The submission flow of lines 167-183: an entry with both `right`
and `wrong` blank is rejected before the store; otherwise the entry is
saved, and on success the history for the current user is reloaded and
handed to `generate_ai_tip`.  Returns the final sheet, the save
outcome, and the tip result when one was produced. -/
def submit_flow (now : DateTime) (saveFails loadFails : Bool) (s : Sheet)
    (ai : Option AIClient) (user right wrong next_time : String) :
    Sheet × Bool × Option TipResult :=
  if right = "" ∧ wrong = "" then (s, false, none)
  else
    let res := save_to_sheet now saveFails s user right wrong next_time
    if res.2 then
      let history := load_history_from_sheet loadFails res.1 (some user)
      (res.1, true, some (generate_ai_tip ai history user))
    else (res.1, false, none)

/-! ## Helper lemmas -/

lemma rowToEntry_savedRow (now : DateTime) (u r w n : String) :
    rowToEntry (savedRow now u r w n) = ⟨strftimeDate now, strftimeTime now, u, r, w, n⟩ := rfl

lemma getAllRecords_append_row (s : Sheet) (hs : s ≠ []) (r : List String) :
    getAllRecords (s ++ [r]) = getAllRecords s ++ [rowToEntry r] := by
  cases s with
  | nil => exact absurd rfl hs
  | cons hd tl => simp [getAllRecords]

lemma foldl_saves_ne_nil (saves : List SaveInput) (s : Sheet) (hs : s ≠ []) :
    saves.foldl
      (fun t i => (save_to_sheet i.now false t i.user i.right i.wrong i.next_time).1) s ≠ [] := by
  induction saves generalizing s with
  | nil => exact hs
  | cons i rest ih =>
    apply ih
    cases s with
    | nil => exact absurd rfl hs
    | cons hd tl => simp [save_to_sheet]

lemma getAllRecords_foldl_saves (saves : List SaveInput) (s : Sheet) (hs : s ≠ []) :
    getAllRecords (saves.foldl
        (fun t i => (save_to_sheet i.now false t i.user i.right i.wrong i.next_time).1) s)
      = getAllRecords s ++ saves.map entryOf := by
  induction saves generalizing s with
  | nil => simp
  | cons i rest ih =>
    have hne : (save_to_sheet i.now false s i.user i.right i.wrong i.next_time).1 ≠ [] := by
      cases s with
      | nil => exact absurd rfl hs
      | cons hd tl => simp [save_to_sheet]
    have step : (save_to_sheet i.now false s i.user i.right i.wrong i.next_time).1
        = s ++ [savedRow i.now i.user i.right i.wrong i.next_time] := rfl
    rw [List.foldl_cons, ih _ hne, step, getAllRecords_append_row s hs]
    simp [rowToEntry_savedRow, entryOf]

lemma records_buildSheet (saves : List SaveInput) :
    getAllRecords (buildSheet saves) = saves.map entryOf := by
  unfold buildSheet
  rw [getAllRecords_foldl_saves saves (init_sheet_headers false []) (by simp [init_sheet_headers, acellA1])]
  simp [init_sheet_headers, acellA1, getAllRecords]

lemma load_inactive (s : Sheet) (f : Option String) (hf : filterActive f = false) :
    load_history_from_sheet false s f = (getAllRecords s).reverse := by
  unfold load_history_from_sheet
  simp only [if_neg Bool.false_ne_true, hf, Bool.false_eq_true, if_false]
  by_cases h : (getAllRecords s).isEmpty
  · simp [h, List.isEmpty_iff.mp h]
  · simp [h]

lemma load_active (s : Sheet) (u : String) (hu : filterActive (some u) = true) :
    load_history_from_sheet false s (some u)
      = ((getAllRecords s).filter (fun e => e.user == u)).reverse := by
  unfold load_history_from_sheet
  simp only [if_neg Bool.false_ne_true, hu, if_true, Option.getD_some]
  by_cases h : (getAllRecords s).isEmpty
  · simp [h, List.isEmpty_iff.mp h]
  · simp [h]

/-! ## Claims -/

/-- C1: after initializing the sheet and appending any sequence of N
entries through `save_to_sheet`, `load_history_from_sheet` with no user
filter returns exactly those N entries, in the exact reverse of append
order (newest first), with no reordering, duplication or omission. -/
theorem claim_C1_load_is_reverse_of_appends (saves : List SaveInput) :
    load_history_from_sheet false (buildSheet saves) none = (saves.map entryOf).reverse ∧
    (load_history_from_sheet false (buildSheet saves) none).length = saves.length := by
  have h : load_history_from_sheet false (buildSheet saves) none = (saves.map entryOf).reverse := by
    rw [load_inactive _ none rfl, records_buildSheet]
  exact ⟨h, by simp [h]⟩

/-- C2 (counterexample): the claim fails at the filter value
`"All Users"`: one entry by `"Kyle"` is appended, yet loading with
`user_filter = "All Users"` returns that entry, while the subsequence
of appended entries whose User field equals `"All Users"` is empty. -/
theorem claim_C2_counterexample :
    load_history_from_sheet false
        (buildSheet [⟨⟨2024, 1, 1, 9, 0, 0⟩, "Kyle", "r", "w", "n"⟩]) (some "All Users")
      = [entryOf ⟨⟨2024, 1, 1, 9, 0, 0⟩, "Kyle", "r", "w", "n"⟩] ∧
    ([⟨⟨2024, 1, 1, 9, 0, 0⟩, "Kyle", "r", "w", "n"⟩].map entryOf).filter
        (fun e => e.user == "All Users") = [] := by
  constructor
  · rfl
  · decide

/-- C2 (amended): for every user identifier U other than the empty
string and the reserved sentinel `"All Users"`, loading with
`user_filter = U` returns exactly the entries whose User field equals
U, as a subsequence of the newest-first unfiltered history (order
preserved). -/
theorem claim_C2_filter_exact (saves : List SaveInput) (u : String)
    (h1 : u ≠ "") (h2 : u ≠ "All Users") :
    load_history_from_sheet false (buildSheet saves) (some u)
      = (load_history_from_sheet false (buildSheet saves) none).filter
          (fun e => e.user == u) ∧
    load_history_from_sheet false (buildSheet saves) (some u)
      = ((saves.map entryOf).filter (fun e => e.user == u)).reverse := by
  have hact : filterActive (some u) = true := by simp [filterActive, h1, h2]
  have hmain : load_history_from_sheet false (buildSheet saves) (some u)
      = ((saves.map entryOf).filter (fun e => e.user == u)).reverse := by
    rw [load_active _ _ hact, records_buildSheet]
  refine ⟨?_, hmain⟩
  rw [hmain, load_inactive _ none rfl, records_buildSheet, List.filter_reverse]

/-- C2 (witness): the amended theorem applied to a concrete history of
two entries and the identifier `"Kyle"`. -/
theorem claim_C2_filter_exact_witness :
    load_history_from_sheet false
        (buildSheet [⟨⟨2024, 1, 1, 9, 0, 0⟩, "Kyle", "r1", "w1", "n1"⟩,
                     ⟨⟨2024, 1, 2, 9, 0, 0⟩, "Sarah", "r2", "w2", "n2"⟩]) (some "Kyle")
      = (load_history_from_sheet false
          (buildSheet [⟨⟨2024, 1, 1, 9, 0, 0⟩, "Kyle", "r1", "w1", "n1"⟩,
                       ⟨⟨2024, 1, 2, 9, 0, 0⟩, "Sarah", "r2", "w2", "n2"⟩]) none).filter
          (fun e => e.user == "Kyle") :=
  (claim_C2_filter_exact
    [⟨⟨2024, 1, 1, 9, 0, 0⟩, "Kyle", "r1", "w1", "n1"⟩,
     ⟨⟨2024, 1, 2, 9, 0, 0⟩, "Sarah", "r2", "w2", "n2"⟩] "Kyle"
    (by decide) (by decide)).1

/-- C10: the sentinel string `"All Users"` and both falsy filter values
(`None` and the empty string) are all treated as no filter:
`load_history_from_sheet` then returns every stored record, in
newest-first (reversed) order. -/
theorem claim_C10_sentinel_and_falsy_filters (s : Sheet) :
    load_history_from_sheet false s (some "All Users") = (getAllRecords s).reverse ∧
    load_history_from_sheet false s (some "") = (getAllRecords s).reverse ∧
    load_history_from_sheet false s none = (getAllRecords s).reverse :=
  ⟨load_inactive s (some "All Users") (by decide),
   load_inactive s (some "") (by decide),
   load_inactive s none rfl⟩

/-- C3 (counterexample): the claim fails in one state of the AI client:
with a `None` (not-connected) client and an empty history,
`generate_ai_tip` returns the client-not-connected error, not the fixed
"log more entries" message, because the client guard of line 98 runs
before the empty-history guard of line 101. -/
theorem claim_C3_counterexample :
    generate_ai_tip none [] "Kyle" = ⟨"AI Error: Client not connected.", []⟩ ∧
    "AI Error: Client not connected." ≠ "Log more entries to get AI coaching!" := by
  exact ⟨rfl, by decide⟩

/-- C3 (amended): with a connected (non-`None`) AI client and an empty
recent-entries history, `generate_ai_tip` returns the fixed "log more
entries" message and performs zero external model calls, for every
user; with a `None` client it instead returns the client-not-connected
error, still with zero external calls. -/
theorem claim_C3_empty_history_no_calls (c : AIClient) (u : String) :
    generate_ai_tip (some c) [] u = ⟨"Log more entries to get AI coaching!", []⟩ ∧
    generate_ai_tip none [] u = ⟨"AI Error: Client not connected.", []⟩ :=
  ⟨rfl, rfl⟩

/-- C4: the prompt is built from `history_df.head(5)` only: the window
it embeds has length `min 5 M` for a history of `M` entries, the window
is the leading (newest-first) segment of the history, the prompt
depends on nothing beyond that window, and the window is the whole
history exactly when `M ≤ 5` — so the truncation boundary sits between
5 and 6 source entries. -/
theorem claim_C4_prompt_window (h : List Entry) (u : String) :
    (recent_history h).length = min 5 h.length ∧
    recent_history h ++ h.drop 5 = h ∧
    build_prompt u h = build_prompt u (recent_history h) ∧
    (recent_history h = h ↔ h.length ≤ 5) := by
  refine ⟨List.length_take 5 h, List.take_append_drop 5 h, ?_, ?_, ?_⟩
  · unfold build_prompt recent_history
    rw [List.take_take]
    simp
  · intro heq
    have hmin : min 5 h.length = h.length := by
      simpa [recent_history, List.length_take] using congrArg List.length heq
    exact min_eq_right_iff.mp hmin
  · intro hle
    exact List.take_of_length_le hle

/-- C5: `save_to_sheet` computes the stored Date and Time fields from
the server clock captured at the call; the four caller-supplied fields
occupy the remaining cells, and the Date and Time cells are identical
across calls with the same clock whatever texts the caller supplies, so
no client-provided value reaches them. -/
theorem claim_C5_server_clock_fields (now : DateTime) (s : Sheet) (u r w n : String) :
    save_to_sheet now false s u r w n = (s ++ [savedRow now u r w n], true) ∧
    (savedRow now u r w n).getD 0 "" = strftimeDate now ∧
    (savedRow now u r w n).getD 1 "" = strftimeTime now ∧
    (savedRow now u r w n).drop 2 = [u, r, w, n] ∧
    (∀ u' r' w' n', (savedRow now u r w n).take 2 = (savedRow now u' r' w' n').take 2) :=
  ⟨rfl, rfl, rfl, rfl, fun _ _ _ _ => rfl⟩

/-- C6: a backend failure makes `save_to_sheet` return `False` with the
sheet unchanged and makes `load_history_from_sheet` return the empty
sequence, neither raising; and a filter matching no stored entry also
yields the empty sequence, not an error. -/
theorem claim_C6_failure_degrades (now : DateTime) (s : Sheet) (f : Option String)
    (u r w n : String) (saves : List SaveInput) (uf : String)
    (h1 : uf ≠ "") (h2 : uf ≠ "All Users") (h3 : ∀ i ∈ saves, i.user ≠ uf) :
    save_to_sheet now true s u r w n = (s, false) ∧
    load_history_from_sheet true s f = [] ∧
    load_history_from_sheet false (buildSheet saves) (some uf) = [] := by
  refine ⟨rfl, rfl, ?_⟩
  rw [load_active _ _ (by simp [filterActive, h1, h2]), records_buildSheet]
  have hnil : (saves.map entryOf).filter (fun e => e.user == uf) = [] := by
    rw [List.filter_eq_nil_iff]
    intro e he
    obtain ⟨i, hi, rfl⟩ := List.mem_map.mp he
    simpa [entryOf] using h3 i hi
  rw [hnil]
  rfl

/-- C6 (witness): the failure-degradation theorem at a concrete sheet,
filter and one-entry history containing no `"Sarah"` entry. -/
theorem claim_C6_failure_degrades_witness :
    save_to_sheet ⟨2024, 1, 1, 9, 0, 0⟩ true [headerRow] "Kyle" "r" "w" "n" = ([headerRow], false) ∧
    load_history_from_sheet true [headerRow] (some "Kyle") = [] ∧
    load_history_from_sheet false
        (buildSheet [⟨⟨2024, 1, 1, 9, 0, 0⟩, "Kyle", "r", "w", "n"⟩]) (some "Sarah") = [] :=
  claim_C6_failure_degrades ⟨2024, 1, 1, 9, 0, 0⟩ [headerRow] (some "Kyle") "Kyle" "r" "w" "n"
    [⟨⟨2024, 1, 1, 9, 0, 0⟩, "Kyle", "r", "w", "n"⟩] "Sarah"
    (by decide) (by decide) (by decide)

/-- C7: when the model call raises (the client's `generate_content`
returns the exception message `e`), `generate_ai_tip` on a non-empty
history returns the descriptive string `"AI Connection Error: " ++ e`
to the caller instead of propagating the exception, after having sent
exactly one request. -/
theorem claim_C7_model_error_string (c : AIClient) (h : List Entry) (u e : String)
    (hne : h ≠ [])
    (herr : ∀ m p, c.generate_content m p = Except.error e) :
    (generate_ai_tip (some c) h u).tip = "AI Connection Error: " ++ e ∧
    (generate_ai_tip (some c) h u).calls = [("gemini-1.5-flash", build_prompt u h)] := by
  have hempty : h.isEmpty = false := by
    cases h with
    | nil => exact absurd rfl hne
    | cons a t => rfl
  unfold generate_ai_tip
  rw [hempty]
  simp [herr]

/-- C7 (witness): a client whose model call always raises `"boom"`, on
a one-entry history. -/
theorem claim_C7_model_error_string_witness :
    (generate_ai_tip (some ⟨fun _ _ => Except.error "boom"⟩)
        [⟨"2024-01-01", "09:00:00", "Kyle", "r", "w", "n"⟩] "Kyle").tip
      = "AI Connection Error: " ++ "boom" ∧
    (generate_ai_tip (some ⟨fun _ _ => Except.error "boom"⟩)
        [⟨"2024-01-01", "09:00:00", "Kyle", "r", "w", "n"⟩] "Kyle").calls
      = [("gemini-1.5-flash",
          build_prompt "Kyle" [⟨"2024-01-01", "09:00:00", "Kyle", "r", "w", "n"⟩])] :=
  claim_C7_model_error_string ⟨fun _ _ => Except.error "boom"⟩
    [⟨"2024-01-01", "09:00:00", "Kyle", "r", "w", "n"⟩] "Kyle" "boom"
    (by decide) (fun _ _ => rfl)

/-- C8: `init_sheet_headers` is idempotent: on an empty sheet it
appends exactly the one header row; on any sheet whose cell A1 is
non-empty it changes nothing; hence running it again after the first
initialization is a no-op, and startup calls never duplicate headers. -/
theorem claim_C8_init_idempotent (s : Sheet) (hne : acellA1 s ≠ "") :
    init_sheet_headers false [] = [headerRow] ∧
    init_sheet_headers false s = s ∧
    init_sheet_headers false (init_sheet_headers false []) = init_sheet_headers false [] := by
  refine ⟨rfl, ?_, by decide⟩
  unfold init_sheet_headers
  simp [hne]

/-- C8 (witness): the idempotence theorem at the sheet holding exactly
the header row, whose cell A1 is `"Date"`. -/
theorem claim_C8_init_idempotent_witness :
    init_sheet_headers false [] = [headerRow] ∧
    init_sheet_headers false [headerRow] = [headerRow] ∧
    init_sheet_headers false (init_sheet_headers false []) = init_sheet_headers false [] :=
  claim_C8_init_idempotent [headerRow] (by decide)

/-- C9: tip generation never touches the store: in the submission flow
the final sheet and the save outcome are the same for every AI client
(absent, failing or succeeding), and whenever the flow reaches the
store the final sheet is exactly the sheet `save_to_sheet` produced —
a tip failure can neither roll back nor hide a successful save. -/
theorem claim_C9_tip_leaves_store_unchanged (now : DateTime) (sf lf : Bool) (s : Sheet)
    (ai ai' : Option AIClient) (u r w n : String) :
    (submit_flow now sf lf s ai u r w n).1 = (submit_flow now sf lf s ai' u r w n).1 ∧
    (submit_flow now sf lf s ai u r w n).2.1 = (submit_flow now sf lf s ai' u r w n).2.1 ∧
    (¬(r = "" ∧ w = "") →
      (submit_flow now sf lf s ai u r w n).1 = (save_to_sheet now sf s u r w n).1) := by
  refine ⟨?_, ?_, ?_⟩
  · unfold submit_flow
    split
    · rfl
    · dsimp only
      split <;> rfl
  · unfold submit_flow
    split
    · rfl
    · dsimp only
      split <;> rfl
  · intro hrw
    unfold submit_flow
    rw [if_neg hrw]
    dsimp only
    split <;> rfl

/-- C9 (witness): the frame theorem at a concrete submission (a
no-client tip versus an always-failing client), with a non-blank entry
so the store is reached. -/
theorem claim_C9_tip_leaves_store_unchanged_witness :
    (submit_flow ⟨2024, 1, 1, 9, 0, 0⟩ false false [headerRow] none "Kyle" "r" "w" "n").1
      = (submit_flow ⟨2024, 1, 1, 9, 0, 0⟩ false false [headerRow]
          (some ⟨fun _ _ => Except.error "boom"⟩) "Kyle" "r" "w" "n").1 ∧
    (submit_flow ⟨2024, 1, 1, 9, 0, 0⟩ false false [headerRow] none "Kyle" "r" "w" "n").2.1
      = (submit_flow ⟨2024, 1, 1, 9, 0, 0⟩ false false [headerRow]
          (some ⟨fun _ _ => Except.error "boom"⟩) "Kyle" "r" "w" "n").2.1 ∧
    (submit_flow ⟨2024, 1, 1, 9, 0, 0⟩ false false [headerRow] none "Kyle" "r" "w" "n").1
      = (save_to_sheet ⟨2024, 1, 1, 9, 0, 0⟩ false [headerRow] "Kyle" "r" "w" "n").1 :=
  ⟨(claim_C9_tip_leaves_store_unchanged ⟨2024, 1, 1, 9, 0, 0⟩ false false [headerRow]
      none (some ⟨fun _ _ => Except.error "boom"⟩) "Kyle" "r" "w" "n").1,
   (claim_C9_tip_leaves_store_unchanged ⟨2024, 1, 1, 9, 0, 0⟩ false false [headerRow]
      none (some ⟨fun _ _ => Except.error "boom"⟩) "Kyle" "r" "w" "n").2.1,
   (claim_C9_tip_leaves_store_unchanged ⟨2024, 1, 1, 9, 0, 0⟩ false false [headerRow]
      none (some ⟨fun _ _ => Except.error "boom"⟩) "Kyle" "r" "w" "n").2.2 (by decide)⟩

end WebAAR
